import Mathlib

/-!
Verification of the soundscene user-account backend (`backend/users/`):
a shallow embedding in Lean 4 of the authorization guards
(`permissions.py`), the validators (`validators.py`), the query/mutation
services (`services.py`) and the error formatters / ordering helper
(`utility.py`), together with theorems settling the specification claims
about them.

Machinery the repository delegates to collaborators (the ORM lookup, the
Relay global-id decoder, the UUID parser, the password-hash verifier, the
serializer shape check) is passed in as explicit function parameters, in
the same way the Python code calls out to those libraries.
-/

namespace Soundscene

/-! ## Python-style error values (DRF serializer errors)

`serializer.errors` is a mapping from field name to an error value that is
a string, a list of values, or a nested mapping.  Mappings are modelled as
association lists, which also captures Python dict insertion order. -/

inductive ErrVal : Type where
  | str (s : String) : ErrVal
  | list (l : List ErrVal) : ErrVal
  | dict (d : List (String × ErrVal)) : ErrVal

/-- The flattened shape produced by the formatters: a string, a list of
strings, or a nested mapping thereof (also used for GraphQL error
`extensions` payloads). -/
inductive ExtVal : Type where
  | str (s : String) : ExtVal
  | list (l : List String) : ExtVal
  | dict (d : List (String × ExtVal)) : ExtVal

/-- `", ".join(xs)` -/
def commaJoin (xs : List String) : String :=
  String.intercalate ", " xs

mutual
/-- Python `str(value)` on an error value: a string is itself, a list or
dict renders via `repr` of its elements. -/
def pyStr : ErrVal → String
  | .str s => s
  | .list l => "[" ++ commaJoin (pyReprList l) ++ "]"
  | .dict d => "\x7b" ++ commaJoin (pyReprDict d) ++ "\x7d"

/-- Python `repr(value)`: strings are quoted, containers render as in
`str`. -/
def pyRepr : ErrVal → String
  | .str s => "\x27" ++ s ++ "\x27"
  | .list l => "[" ++ commaJoin (pyReprList l) ++ "]"
  | .dict d => "\x7b" ++ commaJoin (pyReprDict d) ++ "\x7d"

def pyReprList : List ErrVal → List String
  | [] => []
  | x :: xs => pyRepr x :: pyReprList xs

def pyReprDict : List (String × ErrVal) → List String
  | [] => []
  | (k, v) :: xs => ("\x27" ++ k ++ "\x27: " ++ pyRepr v) :: pyReprDict xs
end

mutual
/-- The inner `flatten` of `format_serializer_validation_error`
(`backend/users/utility.py`): a list maps element-wise through `str`, a
dict recurses key-wise, a scalar maps through `str`. -/
def flatten : ErrVal → ExtVal
  | .str s => .str (pyStr (.str s))
  | .list l => .list (flattenList l)
  | .dict d => .dict (flattenDict d)

/-- `[str(v) for v in value]` -/
def flattenList : List ErrVal → List String
  | [] => []
  | v :: vs => pyStr v :: flattenList vs

/-- `\x7bk: flatten(v) for k, v in value.items()\x7d` -/
def flattenDict : List (String × ErrVal) → List (String × ExtVal)
  | [] => []
  | (k, v) :: kvs => (k, flatten v) :: flattenDict kvs
end

/-- `format_serializer_validation_error` (`backend/users/utility.py`,
lines 226-255): flattens the serializer errors, then builds the summary
message from `errors.keys()` joined with `", "`, and the extensions dict
`\x7bcode: "BAD_USER_INPUT", errors: ...\x7d`. -/
def format_serializer_validation_error
    (serializer_errors : List (String × ErrVal)) :
    String × List (String × ExtVal) :=
  let errors := flattenDict serializer_errors
  let fields := commaJoin (errors.map Prod.fst)
  let message := "Invalid input in the following field(s): " ++ fields ++ "."
  (message, [("code", .str "BAD_USER_INPUT"), ("errors", .dict errors)])

/-! Spec-worded counterpart of the recursive stringification, written from
the spec sentence "lists map element-wise to stringified items; dicts map
key-wise recursively; scalars stringify directly", to be compared with
the source's `flatten`. -/

mutual
/-- Modelled from the spec's words (recursion rule of §4.2), for
comparison with the source's `flatten`. -/
def flattenSpec : ErrVal → ExtVal
  | .str s => .str s
  | .list l => .list (flattenSpecList l)
  | .dict d => .dict (flattenSpecDict d)

def flattenSpecList : List ErrVal → List String
  | [] => []
  | v :: vs => pyStr v :: flattenSpecList vs

def flattenSpecDict : List (String × ErrVal) → List (String × ExtVal)
  | [] => []
  | (k, v) :: kvs => (k, flattenSpec v) :: flattenSpecDict kvs
end

/-- Lexicographic order on character lists by code point, used only to
state the spec's "sorted field names" reading. -/
def charListLe : List Char → List Char → Bool
  | [], _ => true
  | _ :: _, [] => false
  | a :: as, b :: bs =>
    if a.toNat < b.toNat then true
    else if b.toNat < a.toNat then false
    else charListLe as bs

def strLe (a b : String) : Bool := charListLe a.data b.data

/-- Insertion sort on strings, used only to state the spec's
"sorted field names" reading. -/
def insertSorted (s : String) : List String → List String
  | [] => [s]
  | t :: ts => if strLe s t then s :: t :: ts else t :: insertSorted s ts

def sortStrings : List String → List String
  | [] => []
  | s :: ss => insertSorted s (sortStrings ss)

/-! ## Ordering helper (`get_order_by`, `backend/users/utility.py`) -/

/-- `ALLOWED_SORT_FIELDS` (`backend/users/utility.py`, lines 98-104):
client sort fields mapped to model fields (identity mapping). -/
def ALLOWED_SORT_FIELDS : List (String × String) :=
  [("name", "name"), ("email", "email"), ("username", "username"),
   ("created_at", "created_at"), ("updated_at", "updated_at")]

/-- `User.Meta.ordering` (`backend/users/models.py`, line 154): the model
default ordering applied when no explicit `order_by` is given. -/
def User_Meta_ordering : List String := ["-created_at", "-id"]

/-- Python `s.startswith("-")`. -/
def pyStartsWithDash (s : String) : Bool :=
  match s.data with
  | [] => false
  | c :: _ => c = '-'

/-- Python `s[1:]`. -/
def pyDropFirst (s : String) : String := ⟨s.data.drop 1⟩

/-- Python `not s.strip()`: the string is empty or all whitespace. -/
def pyIsBlank (s : String) : Bool := s.data.all Char.isWhitespace

/-- `get_order_by` (`backend/users/utility.py`, lines 107-135).  A falsy
input (absent or empty string) yields the default ordering; otherwise one
optional leading `-` is stripped, the remaining field is checked against
the allow-list, and the signed field plus a same-signed `id` tiebreaker is
returned.  An unknown field raises `GraphQLError` (modelled as `.error`). -/
def get_order_by (order_by : Option String) : Except String (List String) :=
  match order_by with
  | none => .ok ["-created_at", "-id"]
  | some s =>
    if s = "" then .ok ["-created_at", "-id"]
    else
      let sign := if pyStartsWithDash s then "-" else ""
      let field := if pyStartsWithDash s then pyDropFirst s else s
      match (ALLOWED_SORT_FIELDS.lookup field) with
      | some mapped => .ok [sign ++ mapped, sign ++ "id"]
      | none => .error ("Invalid sort field: \x27" ++ field ++ "\x27")

/-! ## Roles, permissions, principals, guards
(`backend/users/models.py`, `backend/users/permissions.py`) -/

/-- `UserRole` (`backend/users/models.py`, lines 25-54): the closed set of
role choices. -/
inductive UserRole : Type where
  | USER : UserRole
  | CREATOR : UserRole
  | REVIEWER : UserRole
  | MODERATOR : UserRole
  | ADMIN : UserRole
deriving DecidableEq

/-- The stored string value of each role choice. -/
def UserRole.value : UserRole → String
  | .USER => "user"
  | .CREATOR => "creator"
  | .REVIEWER => "reviewer"
  | .MODERATOR => "moderator"
  | .ADMIN => "admin"

/-- `Permissions` (`backend/users/permissions.py`, lines 118-135): Django
permission codenames. -/
inductive Permissions : Type where
  | ADD_USER | CHANGE_USER | DELETE_USER | VIEW_USER
  | ADD_PROFILE | CHANGE_PROFILE | DELETE_PROFILE | VIEW_PROFILE
deriving DecidableEq

def Permissions.value : Permissions → String
  | .ADD_USER => "users.add_user"
  | .CHANGE_USER => "users.change_user"
  | .DELETE_USER => "users.delete_user"
  | .VIEW_USER => "users.view_user"
  | .ADD_PROFILE => "users.add_profile"
  | .CHANGE_PROFILE => "users.change_profile"
  | .DELETE_PROFILE => "users.delete_profile"
  | .VIEW_PROFILE => "users.view_profile"

/-- The principal found on `info.context.user`: the authenticated flag, a
`role` attribute that may be absent (`none` models a principal without the
attribute, e.g. Django's `AnonymousUser`), the id compared by
`owner_required`, and the `has_perm` capability query. -/
structure ContextUser : Type where
  is_authenticated : Bool
  role : Option String
  id : Int
  has_perm : Permissions → Bool

/-- A raised `GraphQLError`: message plus extensions dict. -/
structure GQLError : Type where
  message : String
  extensions : List (String × ExtVal)

/-- Outcome of a guarded resolver call: the handler's value, a raised
`GraphQLError`, or a plain Python `AttributeError` (raised by
`role_required` when the principal has no `role` attribute at all). -/
inductive GuardResult (β : Type) : Type where
  | ok (b : β) : GuardResult β
  | err (e : GQLError) : GuardResult β
  | attrError : GuardResult β

/-- A resolver as seen by the guards: it receives the principal and the
call arguments and may itself be a guarded resolver, hence the
`GuardResult` codomain.  A plain handler is lifted with `liftHandler`. -/
def Resolver (α β : Type) : Type := ContextUser → α → GuardResult β

def liftHandler {α β : Type} (h : α → β) : Resolver α β :=
  fun _ args => .ok (h args)

/-- `graphql_login_required` (`backend/users/permissions.py`,
lines 18-39). -/
def graphql_login_required {α β : Type} (func : Resolver α β) :
    Resolver α β :=
  fun user args =>
    if user.is_authenticated = false then
      .err ⟨"Authentication Required: You must be logged in to perform this action.",
            [("code", .str "UNAUTHENTICATED")]⟩
    else func user args

/-- `role_required` (`backend/users/permissions.py`, lines 42-80).  The
allowed roles are mapped to their string values; `user.role not in
role_values` reads the `role` attribute directly, so a principal without
one raises `AttributeError`.  On rejection, the message joins the allowed
role values with `", "` in the order they were passed to the guard. -/
def role_required {α β : Type} (allowed_roles : List UserRole)
    (func : Resolver α β) : Resolver α β :=
  fun user args =>
    let role_values := allowed_roles.map UserRole.value
    match user.role with
    | none => .attrError
    | some r =>
      if (role_values.contains r) = false then
        .err ⟨"Access denied. Your role \x27" ++ r ++
              "\x27 is not authorized for this action. Allowed roles: " ++
              commaJoin role_values ++ ".",
              [("code", .str "FORBIDDEN"),
               ("user_role", .str r),
               ("allowed_roles", .list role_values)]⟩
      else func user args

/-- `login_and_role_required` (`backend/users/permissions.py`,
lines 83-99): login check first, then role check. -/
def login_and_role_required {α β : Type} (allowed_roles : List UserRole)
    (func : Resolver α β) : Resolver α β :=
  graphql_login_required (role_required allowed_roles func)

/-- Shortcut decorators (`backend/users/permissions.py`, lines 102-115). -/
def admin_required {α β : Type} : Resolver α β → Resolver α β :=
  login_and_role_required [UserRole.ADMIN]

def moderator_required {α β : Type} : Resolver α β → Resolver α β :=
  login_and_role_required [UserRole.ADMIN, UserRole.MODERATOR]

def reviewer_required {α β : Type} : Resolver α β → Resolver α β :=
  login_and_role_required [UserRole.ADMIN, UserRole.REVIEWER]

def creator_required {α β : Type} : Resolver α β → Resolver α β :=
  login_and_role_required [UserRole.ADMIN, UserRole.CREATOR]

def user_required {α β : Type} : Resolver α β → Resolver α β :=
  login_and_role_required [UserRole.USER]

/-- `permission_required` (`backend/users/permissions.py`, lines 138-172).
`message or default`: a `None` or empty custom message falls back to the
default text.  No authentication check of its own. -/
def permission_required {α β : Type} (required_perm : Permissions)
    (message : Option String) (func : Resolver α β) : Resolver α β :=
  fun user args =>
    if user.has_perm required_perm = false then
      let defaultMsg := "Access Denied: Missing required permission \x27" ++
        required_perm.value ++ "\x27."
      let msg := match message with
        | none => defaultMsg
        | some m => if m = "" then defaultMsg else m
      .err ⟨msg, [("code", .str "FORBIDDEN"),
                  ("required_permission", .str required_perm.value)]⟩
    else func user args

/-- `owner_required` (`backend/users/permissions.py`, lines 179-233).
Unauthenticated principals fail `UNAUTHENTICATED`; a principal with a
`role` attribute equal to admin bypasses the ownership check (the
extractor is not called); otherwise the expected owner id is extracted
from the call arguments and compared with `user.id`. -/
def owner_required {α β : Type} (get_owner_id : α → Int)
    (func : Resolver α β) : Resolver α β :=
  fun user args =>
    if user.is_authenticated = false then
      .err ⟨"Authentication Required: You must be logged in to access this resource.",
            [("code", .str "UNAUTHENTICATED")]⟩
    else if user.role = some (UserRole.ADMIN.value) then
      func user args
    else
      let expected_owner_id := get_owner_id args
      if user.id ≠ expected_owner_id then
        .err ⟨"Access Denied: This resource belongs to another user. You are not authorized to access it.",
              [("code", .str "FORBIDDEN"),
               ("reason", .str "NOT_RESOURCE_OWNER")]⟩
      else func user args

/-! ## Calendar dates and the age-range validator
(`backend/users/validators.py`) -/

/-- A Python `datetime.date`: year, month, day. -/
structure PyDate : Type where
  year : Int
  month : Nat
  day : Nat
deriving DecidableEq

/-- Gregorian leap year, as Python's `calendar.isleap`. -/
def isLeapYear (y : Int) : Bool :=
  (y % 4 = 0 && y % 100 ≠ 0) || y % 400 = 0

/-- Days in a Gregorian month. -/
def daysInMonth (y : Int) (m : Nat) : Nat :=
  if m = 2 then (if isLeapYear y then 29 else 28)
  else if m = 4 || m = 6 || m = 9 || m = 11 then 30
  else 31

/-- Validity of a `PyDate` (Python's `date` constructor bounds). -/
def isValidDate (d : PyDate) : Bool :=
  1 ≤ d.year && d.year ≤ 9999 &&
  1 ≤ d.month && d.month ≤ 12 &&
  1 ≤ d.day && d.day ≤ daysInMonth d.year d.month

/-- The calendar day after `d` (`d + timedelta(days=1)`). -/
def nextDay (d : PyDate) : PyDate :=
  if d.day < daysInMonth d.year d.month then ⟨d.year, d.month, d.day + 1⟩
  else if d.month < 12 then ⟨d.year, d.month + 1, 1⟩
  else ⟨d.year + 1, 1, 1⟩

/-- The calendar day before `d` (`d - timedelta(days=1)`). -/
def prevDay (d : PyDate) : PyDate :=
  if 1 < d.day then ⟨d.year, d.month, d.day - 1⟩
  else if 1 < d.month then ⟨d.year, d.month - 1, daysInMonth d.year (d.month - 1)⟩
  else ⟨d.year - 1, 12, 31⟩

/-- Python tuple comparison `(a1, a2) < (b1, b2)`: lexicographic. -/
def tupleLt (a b : Nat × Nat) : Prop :=
  a.1 < b.1 ∨ (a.1 = b.1 ∧ a.2 < b.2)

instance (a b : Nat × Nat) : Decidable (tupleLt a b) :=
  inferInstanceAs (Decidable (_ ∨ _))

/-- The age computation of `validate_age_range` and `Profile.age`
(`backend/users/validators.py`, lines 217-224):
`today.year - birth.year - ((today.month, today.day) < (birth.month,
birth.day))`.  `today` (`date.today()`) is passed explicitly. -/
def pyAge (today birth : PyDate) : Int :=
  today.year - birth.year -
    (if tupleLt (today.month, today.day) (birth.month, birth.day) then 1 else 0)

/-- `validate_age_range` (`backend/users/validators.py`, lines 203-229),
with the clock passed explicitly: returns the raised `ValidationError`
message, or `none` when the birth date is accepted. -/
def validate_age_range (today birth : PyDate) : Option String :=
  let age := pyAge today birth
  if age < 12 then some "Too young — must be at least 12 years old."
  else if age > 90 then some "Too old — must be less than 90 years old."
  else none

/-! ## Query and mutation services (`backend/users/services.py`)

The ORM queryset, the Relay global-id decoder, the UUID parser, the
serializer shape check and the password-hash verifier are collaborator
parameters; the service bodies below mirror the Python control flow. -/

/-- Entries of `USER_MESSAGES` (`backend/users/utility.py`, lines 29-59)
used by the services. -/
def USER_MESSAGES_list_empty : String := "No users found. Try again later."

def USER_MESSAGES_search_empty : String :=
  "No users matched your search. Try adjusting your filters."

def USER_MESSAGES_not_found : String :=
  "Sorry, we couldn’t find the user you’re looking for."

def USER_MESSAGES_email_with_no_user : String :=
  "No account found with this email address."

def USER_MESSAGES_invalid_password : String :=
  "The password you entered is incorrect."

/-- The ordering step of `get_all_users` (`backend/users/services.py`,
lines 72-75): only executed when `order_by` is truthy. -/
def applyOrderStep {α : Type} (applyOrder : List String → List α → List α)
    (order_by : Option String) (qs : List α) : Except String (List α) :=
  match order_by with
  | none => .ok qs
  | some s =>
    if s = "" then .ok qs
    else
      match get_order_by (some s) with
      | .error e => .error e
      | .ok ordering => .ok (applyOrder ordering qs)

/-- `get_all_users` (`backend/users/services.py`, lines 27-77).  The base
queryset is a list, `UserFilter(filters, queryset).qs` is the collaborator
`applyFilter`, and `queryset.order_by(*ordering)` is `applyOrder`.  A
filters dict is truthy only when present and non-empty. -/
def get_all_users {α : Type} (base : List α)
    (applyFilter : List α → List α)
    (applyOrder : List String → List α → List α)
    (order_by : Option String)
    (filters : Option (List (String × String))) : Except String (List α) :=
  if base.isEmpty then .error USER_MESSAGES_list_empty
  else
    let filtersTruthy := match filters with
      | none => false
      | some l => !l.isEmpty
    if filtersTruthy then
      let qs := applyFilter base
      if qs.isEmpty then .error USER_MESSAGES_search_empty
      else applyOrderStep applyOrder order_by qs
    else applyOrderStep applyOrder order_by base

/-- A Python value passed as `user_id`: a string or some non-string
value. -/
inductive PyVal : Type where
  | str (s : String) : PyVal
  | nonStr : PyVal

/-- A stored user record, reduced to the fields the modelled services
read. -/
structure UserRec : Type where
  id : String
  email : String
  passwordHash : String
deriving DecidableEq

/-- `get_user_by_id` (`backend/users/services.py`, lines 80-123).
`from_global_id` models `graphql_relay.from_global_id` (`none` = the
decoder raised), `parseUUID` models the `UUID(raw_id)` constructor
(`none` = `ValueError`), `lookupUser` models
`User.objects.get(id=...)` (`none` = `ObjectDoesNotExist`). -/
def get_user_by_id (from_global_id : String → Option (String × String))
    (parseUUID : String → Option String)
    (lookupUser : String → Option UserRec)
    (user_id : PyVal) : Except String UserRec :=
  match user_id with
  | .nonStr =>
    .error "Oops! It looks like the user ID is missing or invalid. Please try again."
  | .str s =>
    if pyIsBlank s || s.length ≤ 2 then
      .error "Oops! It looks like the user ID is missing or invalid. Please try again."
    else
      match from_global_id s with
      | none =>
        .error "We couldn\x27t read the user ID format. Please double-check and try again."
      | some (type_name, raw_id) =>
        if type_name ≠ "UserNode" then
          .error ("Invalid type: expected \x27UserNode\x27, got \x27" ++ type_name ++ "\x27")
        else
          match parseUUID raw_id with
          | none => .error "The user ID format is not valid. Please try again."
          | some uuid =>
            match lookupUser uuid with
            | none => .error USER_MESSAGES_not_found
            | some u => .ok u

/-- `login_user` (`backend/users/services.py`, lines 211-259).
`validateShape` models `LoginSerializer` (`some errors` = invalid),
`check_password` models the password-hash verifier. -/
def login_user (validateShape : String → String → Option (List (String × ErrVal)))
    (db : List UserRec) (check_password : UserRec → String → Bool)
    (email password : String) : Except GQLError UserRec :=
  match validateShape email password with
  | some errs =>
    let fmt := format_serializer_validation_error errs
    .error ⟨fmt.1, fmt.2⟩
  | none =>
    match db.find? (fun u => u.email == email) with
    | none =>
      .error ⟨USER_MESSAGES_email_with_no_user,
              [("code", .str "UNAUTHENTICATED"),
               ("errors", .dict [("email", .str USER_MESSAGES_email_with_no_user)])]⟩
    | some user =>
      if check_password user password = false then
        .error ⟨USER_MESSAGES_invalid_password,
                [("code", .str "UNAUTHENTICATED"),
                 ("errors", .dict [("password", .str USER_MESSAGES_invalid_password)])]⟩
      else .ok user

/-! ## Theorems -/

/-- C1: Through `owner_required`: an unauthenticated principal fails
`UNAUTHENTICATED` with the exact message, with neither the handler nor the
owner-id extractor consulted; an authenticated admin principal has the
handler invoked with the extractor not consulted; an authenticated
non-admin principal whose id differs from the extracted owner id fails
`FORBIDDEN` with reason `NOT_RESOURCE_OWNER` and the handler is never
invoked; with equal ids the handler is invoked. -/
theorem owner_required_spec {α β : Type} (user : ContextUser) (args : α)
    (g : α → Int) (h : α → β) :
    (user.is_authenticated = false →
      ∀ (g2 : α → Int) (f : Resolver α β),
        owner_required g2 f user args =
          .err ⟨"Authentication Required: You must be logged in to access this resource.",
                [("code", .str "UNAUTHENTICATED")]⟩) ∧
    (user.is_authenticated = true → user.role = some UserRole.ADMIN.value →
      ∀ (g2 : α → Int),
        owner_required g2 (liftHandler h) user args = .ok (h args)) ∧
    (user.is_authenticated = true → user.role ≠ some UserRole.ADMIN.value →
      user.id ≠ g args →
      ∀ (f : Resolver α β),
        owner_required g f user args =
          .err ⟨"Access Denied: This resource belongs to another user. You are not authorized to access it.",
                [("code", .str "FORBIDDEN"), ("reason", .str "NOT_RESOURCE_OWNER")]⟩) ∧
    (user.is_authenticated = true → user.role ≠ some UserRole.ADMIN.value →
      user.id = g args →
      owner_required g (liftHandler h) user args = .ok (h args)) := by
  refine ⟨?_, ?_, ?_, ?_⟩
  · intro hauth g2 f
    simp [owner_required, hauth]
  · intro hauth hrole g2
    simp [owner_required, hauth, hrole, liftHandler]
  · intro hauth hrole hid f
    simp [owner_required, hauth, hrole, hid]
  · intro hauth hrole hid
    simp [owner_required, hauth, hrole, hid, liftHandler]

/-- Witness for C1: concrete evaluations of `owner_required` on each
branch. -/
theorem owner_required_spec_witness :
    (owner_required (fun _ : Unit => (7 : Int))
       (liftHandler (fun _ : Unit => "handled"))
       ⟨false, some "user", 7, fun _ => false⟩ () =
      .err ⟨"Authentication Required: You must be logged in to access this resource.",
            [("code", .str "UNAUTHENTICATED")]⟩) ∧
    (owner_required (fun _ : Unit => (99 : Int))
       (liftHandler (fun _ : Unit => "handled"))
       ⟨true, some "admin", 7, fun _ => false⟩ () = .ok "handled") ∧
    (owner_required (fun _ : Unit => (99 : Int))
       (liftHandler (fun _ : Unit => "handled"))
       ⟨true, some "user", 7, fun _ => false⟩ () =
      .err ⟨"Access Denied: This resource belongs to another user. You are not authorized to access it.",
            [("code", .str "FORBIDDEN"), ("reason", .str "NOT_RESOURCE_OWNER")]⟩) ∧
    (owner_required (fun _ : Unit => (7 : Int))
       (liftHandler (fun _ : Unit => "handled"))
       ⟨true, some "user", 7, fun _ => false⟩ () = .ok "handled") :=
  ⟨(owner_required_spec ⟨false, some "user", 7, fun _ => false⟩ ()
      (fun _ => (7 : Int)) (fun _ => "handled")).1 rfl _ _,
   (owner_required_spec ⟨true, some "admin", 7, fun _ => false⟩ ()
      (fun _ => (99 : Int)) (fun _ => "handled")).2.1 rfl rfl _,
   (owner_required_spec ⟨true, some "user", 7, fun _ => false⟩ ()
      (fun _ => (99 : Int)) (fun _ => "handled")).2.2.1 rfl
      (by simp [UserRole.value]) (by decide) _,
   (owner_required_spec ⟨true, some "user", 7, fun _ => false⟩ ()
      (fun _ => (7 : Int)) (fun _ => "handled")).2.2.2 rfl
      (by simp [UserRole.value]) rfl⟩

/-- C10: `permission_required` performs no authentication check: for every
principal (authenticated or not) whose `has_perm` query is false for the
required permission, it raises an error with code `FORBIDDEN` carrying
extension `required_permission` equal to the permission's value and the
handler is never invoked; when the query is true the handler is invoked
unconditionally. -/
theorem permission_required_spec {α β : Type} (user : ContextUser)
    (args : α) (p : Permissions) (message : Option String) (h : α → β) :
    (user.has_perm p = false →
      ∀ (f : Resolver α β),
        permission_required p message f user args =
          .err ⟨(match message with
                 | none => "Access Denied: Missing required permission \x27" ++
                     p.value ++ "\x27."
                 | some m =>
                   if m = "" then
                     "Access Denied: Missing required permission \x27" ++
                       p.value ++ "\x27."
                   else m),
                [("code", .str "FORBIDDEN"),
                 ("required_permission", .str p.value)]⟩) ∧
    (user.has_perm p = true →
      permission_required p message (liftHandler h) user args = .ok (h args)) := by
  constructor
  · intro hperm f
    simp only [permission_required, hperm]
    rfl
  · intro hperm
    simp [permission_required, hperm, liftHandler]

/-- Witness for C10: an unauthenticated principal lacking the permission
gets `FORBIDDEN` (not `UNAUTHENTICATED`); one holding it reaches the
handler. -/
theorem permission_required_spec_witness :
    (permission_required Permissions.VIEW_USER none
       (liftHandler (fun _ : Unit => "handled"))
       ⟨false, none, 0, fun _ => false⟩ () =
      .err ⟨"Access Denied: Missing required permission \x27users.view_user\x27.",
            [("code", .str "FORBIDDEN"),
             ("required_permission", .str "users.view_user")]⟩) ∧
    (permission_required Permissions.VIEW_USER none
       (liftHandler (fun _ : Unit => "handled"))
       ⟨false, none, 0, fun _ => true⟩ () = .ok "handled") :=
  ⟨(permission_required_spec ⟨false, none, 0, fun _ => false⟩ ()
      Permissions.VIEW_USER none (fun _ => "handled")).1 rfl _,
   (permission_required_spec ⟨false, none, 0, fun _ => true⟩ ()
      Permissions.VIEW_USER none (fun _ => "handled")).2 rfl⟩

/-- C9: `user_required` accepts exactly the principals whose role is
`"user"` — in particular an authenticated admin is rejected `FORBIDDEN` —
while `moderator_required`, `reviewer_required` and `creator_required`
each let an admin principal through. -/
theorem user_required_spec {α β : Type} (user : ContextUser) (args : α)
    (h : α → β) (r : String) :
    user.is_authenticated = true → user.role = some r →
    (user_required (liftHandler h) user args =
      (if r = "user" then .ok (h args)
       else
         .err ⟨"Access denied. Your role \x27" ++ r ++
               "\x27 is not authorized for this action. Allowed roles: user.",
               [("code", .str "FORBIDDEN"), ("user_role", .str r),
                ("allowed_roles", .list ["user"])]⟩)) ∧
    (r = "admin" →
      moderator_required (liftHandler h) user args = .ok (h args) ∧
      reviewer_required (liftHandler h) user args = .ok (h args) ∧
      creator_required (liftHandler h) user args = .ok (h args)) := by
  intro hauth hrole
  constructor
  · by_cases hr : r = "user"
    · simp [user_required, login_and_role_required, graphql_login_required,
            role_required, hauth, hrole, hr, UserRole.value, liftHandler]
    · simp [user_required, login_and_role_required, graphql_login_required,
            role_required, hauth, hrole, hr, UserRole.value, commaJoin]
      rw [String.append_assoc, String.append_assoc]
      rfl
  · intro hr
    subst hr
    refine ⟨?_, ?_, ?_⟩ <;>
      simp [moderator_required, reviewer_required, creator_required,
            login_and_role_required, graphql_login_required, role_required,
            hauth, hrole, UserRole.value, liftHandler]

/-- Witness for C9: an authenticated admin is rejected by `user_required`
but let through by the three other shortcuts; an authenticated `"user"`
principal is let through by `user_required`. -/
theorem user_required_spec_witness :
    (user_required (liftHandler (fun _ : Unit => "handled"))
       ⟨true, some "admin", 0, fun _ => false⟩ () =
      .err ⟨"Access denied. Your role \x27admin\x27 is not authorized for this action. Allowed roles: user.",
            [("code", .str "FORBIDDEN"), ("user_role", .str "admin"),
             ("allowed_roles", .list ["user"])]⟩) ∧
    (moderator_required (liftHandler (fun _ : Unit => "handled"))
       ⟨true, some "admin", 0, fun _ => false⟩ () = .ok "handled") ∧
    (user_required (liftHandler (fun _ : Unit => "handled"))
       ⟨true, some "user", 0, fun _ => false⟩ () = .ok "handled") := by
  refine ⟨?_, ?_, ?_⟩
  · have h := (user_required_spec ⟨true, some "admin", 0, fun _ => false⟩ ()
      (fun _ => "handled") "admin" rfl rfl).1
    simpa using h
  · exact ((user_required_spec ⟨true, some "admin", 0, fun _ => false⟩ ()
      (fun _ => "handled") "admin" rfl rfl).2 rfl).1
  · have h := (user_required_spec ⟨true, some "user", 0, fun _ => false⟩ ()
      (fun _ => "handled") "user" rfl rfl).1
    simpa using h

/-- C6 counterexample: `role_required(MODERATOR, ADMIN)` rejecting a
`"user"` principal joins the allowed role values in the order they were
passed (`"moderator, admin"`), which is not the sorted order
(`"admin, moderator"`), refuting the claim's "sorted order". -/
theorem role_required_join_not_sorted :
    (role_required [UserRole.MODERATOR, UserRole.ADMIN]
       (liftHandler (fun _ : Unit => "handled"))
       ⟨true, some "user", 0, fun _ => false⟩ ()) =
      .err ⟨"Access denied. Your role \x27user\x27 is not authorized for this action. Allowed roles: moderator, admin.",
            [("code", .str "FORBIDDEN"), ("user_role", .str "user"),
             ("allowed_roles", .list ["moderator", "admin"])]⟩ ∧
    commaJoin (sortStrings ["moderator", "admin"]) = "admin, moderator" ∧
    "Access denied. Your role \x27user\x27 is not authorized for this action. Allowed roles: moderator, admin." ≠
      "Access denied. Your role \x27user\x27 is not authorized for this action. Allowed roles: admin, moderator." :=
  ⟨rfl, by decide, by decide⟩

/-- C6 (amended): whenever `role_required` rejects a principal whose role
is not among the allowed roles, the `FORBIDDEN` error's message embeds the
principal's role value and the comma-joined allowed role values in the
order they were passed to the guard (not sorted), and its extensions carry
`user_role` and `allowed_roles`; the handler is never invoked. -/
theorem role_required_spec {α β : Type} (allowed : List UserRole)
    (user : ContextUser) (args : α) (r : String)
    (hrole : user.role = some r)
    (hnot : (allowed.map UserRole.value).contains r = false) :
    ∀ (f : Resolver α β),
      role_required allowed f user args =
        .err ⟨"Access denied. Your role \x27" ++ r ++
              "\x27 is not authorized for this action. Allowed roles: " ++
              commaJoin (allowed.map UserRole.value) ++ ".",
              [("code", .str "FORBIDDEN"), ("user_role", .str r),
               ("allowed_roles", .list (allowed.map UserRole.value))]⟩ := by
  intro f
  simp only [role_required, hrole]
  rw [hnot]
  simp

/-- Witness for C6: `role_required(ADMIN)` applied to a default-role
(`"user"`) principal fails `FORBIDDEN` listing the attempted role and the
single allowed role `"admin"`. -/
theorem role_required_spec_witness :
    role_required [UserRole.ADMIN]
      (liftHandler (fun _ : Unit => "handled"))
      ⟨true, some "user", 0, fun _ => false⟩ () =
      .err ⟨"Access denied. Your role \x27user\x27 is not authorized for this action. Allowed roles: admin.",
            [("code", .str "FORBIDDEN"), ("user_role", .str "user"),
             ("allowed_roles", .list ["admin"])]⟩ :=
  role_required_spec [UserRole.ADMIN]
    ⟨true, some "user", 0, fun _ => false⟩ () "user" rfl (by decide)
    (liftHandler (fun _ : Unit => "handled"))

/-! Helper lemmas: the source's `flatten` coincides with the spec-worded
recursion `flattenSpec`, and flattening preserves the key sequence. -/

mutual
theorem flatten_eq_flattenSpec : ∀ (v : ErrVal), flatten v = flattenSpec v
  | .str _ => rfl
  | .list l => by rw [flatten, flattenSpec, flattenList_eq_flattenSpecList l]
  | .dict d => by rw [flatten, flattenSpec, flattenDict_eq_flattenSpecDict d]

theorem flattenList_eq_flattenSpecList :
    ∀ (l : List ErrVal), flattenList l = flattenSpecList l
  | [] => rfl
  | v :: vs => by
    rw [flattenList, flattenSpecList, flattenList_eq_flattenSpecList vs]

theorem flattenDict_eq_flattenSpecDict :
    ∀ (d : List (String × ErrVal)), flattenDict d = flattenSpecDict d
  | [] => rfl
  | (k, v) :: kvs => by
    rw [flattenDict, flattenSpecDict, flatten_eq_flattenSpec v,
        flattenDict_eq_flattenSpecDict kvs]
end

theorem flattenDict_keys :
    ∀ (d : List (String × ErrVal)),
      (flattenDict d).map Prod.fst = d.map Prod.fst
  | [] => rfl
  | (k, v) :: kvs => by
    rw [flattenDict, List.map_cons, List.map_cons, flattenDict_keys kvs]

/-- C3 counterexample: on the two-field error mapping with keys in the
order `b, a`, the formatter's message lists the fields in the mapping's
own order (`"b, a"`), not in sorted order (`"a, b"`), refuting the
claim's "sorted order". -/
theorem format_error_message_not_sorted :
    (format_serializer_validation_error
       [("b", .str "x"), ("a", .str "y")]).1 =
      "Invalid input in the following field(s): b, a." ∧
    commaJoin (sortStrings ["b", "a"]) = "a, b" ∧
    (format_serializer_validation_error
       [("b", .str "x"), ("a", .str "y")]).1 ≠
      "Invalid input in the following field(s): a, b." :=
  ⟨rfl, by decide, by decide⟩

/-- C3 (amended): for every non-empty error mapping, the formatter
returns the message `"Invalid input in the following field(s): F."` with
`F` the comma-joined field names in the mapping's own key order (not
sorted), and extensions `code = "BAD_USER_INPUT"` with `errors` the
recursively stringified copy of the input (lists element-wise stringified,
dicts key-wise recursive, scalars stringified directly, to arbitrary
depth — `flattenSpec` is the spec's recursion rule and agrees with the
source's `flatten`). -/
theorem format_serializer_validation_error_spec
    (errs : List (String × ErrVal)) (hne : errs ≠ []) :
    format_serializer_validation_error errs =
      ("Invalid input in the following field(s): " ++
         commaJoin (errs.map Prod.fst) ++ ".",
       [("code", .str "BAD_USER_INPUT"),
        ("errors", .dict (flattenSpecDict errs))]) := by
  simp only [format_serializer_validation_error]
  rw [flattenDict_keys, flattenDict_eq_flattenSpecDict]

/-- Witness for C3: concrete one-field nested input evaluated through the
amended statement. -/
theorem format_serializer_validation_error_spec_witness :
    format_serializer_validation_error
      [("profile", .dict [("age", .list [.str "Must be over 18."])])] =
      ("Invalid input in the following field(s): " ++
         commaJoin ["profile"] ++ ".",
       [("code", .str "BAD_USER_INPUT"),
        ("errors", .dict (flattenSpecDict
          [("profile", .dict [("age", .list [.str "Must be over 18."])])]))]) :=
  format_serializer_validation_error_spec
    [("profile", .dict [("age", .list [.str "Must be over 18."])])]
    (List.cons_ne_nil _ _)

/-- C4: with `order_by` absent the ordering is the default
`(-created_at, -id)` (also the model's `Meta.ordering`); each allow-listed
field resolves to the signed field plus a same-signed `id` tiebreaker; any
other field name fails with `"Invalid sort field: \x27field\x27"`. -/
theorem get_order_by_spec :
    (get_order_by none = .ok User_Meta_ordering ∧
     User_Meta_ordering = ["-created_at", "-id"]) ∧
    (get_order_by (some "name") = .ok ["name", "id"] ∧
     get_order_by (some "-name") = .ok ["-name", "-id"] ∧
     get_order_by (some "email") = .ok ["email", "id"] ∧
     get_order_by (some "-email") = .ok ["-email", "-id"] ∧
     get_order_by (some "username") = .ok ["username", "id"] ∧
     get_order_by (some "-username") = .ok ["-username", "-id"] ∧
     get_order_by (some "created_at") = .ok ["created_at", "id"] ∧
     get_order_by (some "-created_at") = .ok ["-created_at", "-id"] ∧
     get_order_by (some "updated_at") = .ok ["updated_at", "id"] ∧
     get_order_by (some "-updated_at") = .ok ["-updated_at", "-id"]) ∧
    (∀ s : String, s ≠ "" →
      ALLOWED_SORT_FIELDS.lookup
          (if pyStartsWithDash s then pyDropFirst s else s) = none →
      get_order_by (some s) =
        .error ("Invalid sort field: \x27" ++
          (if pyStartsWithDash s then pyDropFirst s else s) ++ "\x27")) := by
  refine ⟨⟨rfl, rfl⟩,
          ⟨rfl, rfl, rfl, rfl, rfl, rfl, rfl, rfl, rfl, rfl⟩, ?_⟩
  intro s hs hlook
  simp only [get_order_by, hs, if_false, hlook]

/-- Witness for C4: the non-allow-listed field `"id"` is rejected with
the exact error text. -/
theorem get_order_by_spec_witness :
    get_order_by (some "id") = .error "Invalid sort field: \x27id\x27" := by
  have h := get_order_by_spec.2.2 "id" (by decide) (by decide)
  simpa using h

/-- Any error produced by `get_order_by` is of the invalid-sort-field
shape. -/
theorem get_order_by_error_shape (ob : Option String) (e : String)
    (h : get_order_by ob = .error e) :
    ∃ f, e = "Invalid sort field: \x27" ++ f ++ "\x27" := by
  match ob with
  | none => simp [get_order_by] at h
  | some s =>
    by_cases hs : s = ""
    · simp [get_order_by, hs] at h
    · simp only [get_order_by, hs, if_false] at h
      rcases hl : ALLOWED_SORT_FIELDS.lookup
          (if pyStartsWithDash s then pyDropFirst s else s) with _ | mapped
      · rw [hl] at h
        simp at h
        exact ⟨_, h.symm⟩
      · rw [hl] at h
        simp at h

/-- A message of the invalid-sort-field shape differs from the two
empty-collection messages. -/
theorem invalid_sort_ne_empty_messages (f : String) :
    ("Invalid sort field: \x27" ++ f ++ "\x27") ≠ USER_MESSAGES_list_empty ∧
    ("Invalid sort field: \x27" ++ f ++ "\x27") ≠ USER_MESSAGES_search_empty := by
  constructor <;>
    · intro h
      have h2 := congrArg (fun s => s.data.head?) h
      simp [String.data_append, List.head?_append,
            USER_MESSAGES_list_empty, USER_MESSAGES_search_empty] at h2

/-- The ordering step never produces the empty-collection errors. -/
theorem applyOrderStep_ne_empty_messages {α : Type}
    (applyOrder : List String → List α → List α) (ob : Option String)
    (qs : List α) :
    applyOrderStep applyOrder ob qs ≠ .error USER_MESSAGES_list_empty ∧
    applyOrderStep applyOrder ob qs ≠ .error USER_MESSAGES_search_empty := by
  match ob with
  | none => exact ⟨by simp [applyOrderStep], by simp [applyOrderStep]⟩
  | some s =>
    by_cases hs : s = ""
    · exact ⟨by simp [applyOrderStep, hs], by simp [applyOrderStep, hs]⟩
    · rcases hg : get_order_by (some s) with e | ordering
      · obtain ⟨f, hf⟩ := get_order_by_error_shape (some s) e hg
        subst hf
        constructor <;> intro h <;>
          simp only [applyOrderStep, hs, if_false, hg] at h
        · exact (invalid_sort_ne_empty_messages f).1 (by simpa using h)
        · exact (invalid_sort_ne_empty_messages f).2 (by simpa using h)
      · constructor <;> intro h <;>
          simp [applyOrderStep, hs, hg] at h

/-- C7: `get_all_users` fails with the "no data exists" message exactly
when the unfiltered collection is empty; it fails with the "no matches for
given filter" message exactly when truthy filters were supplied, the
unfiltered collection is non-empty, and the filtered result is empty;
when no truthy filters are supplied the result does not depend on the
filter application at all (the filtered-empty check is never evaluated). -/
theorem get_all_users_empty_errors {α : Type} (base : List α)
    (applyFilter : List α → List α)
    (applyOrder : List String → List α → List α)
    (order_by : Option String) (filters : Option (List (String × String))) :
    (get_all_users base applyFilter applyOrder order_by filters =
        .error USER_MESSAGES_list_empty ↔ base = []) ∧
    (get_all_users base applyFilter applyOrder order_by filters =
        .error USER_MESSAGES_search_empty ↔
      ((∃ l, filters = some l ∧ l ≠ []) ∧ base ≠ [] ∧ applyFilter base = [])) ∧
    ((∀ l, filters = some l → l = []) →
      ∀ g : List α → List α,
        get_all_users base applyFilter applyOrder order_by filters =
          get_all_users base g applyOrder order_by filters) := by
  have hmsg : USER_MESSAGES_list_empty ≠ USER_MESSAGES_search_empty := by
    decide
  by_cases hbase : base = []
  · subst hbase
    refine ⟨by simp [get_all_users], ?_, ?_⟩
    · simp [get_all_users, hmsg]
    · intro _ g
      simp [get_all_users]
  · have hbe : base.isEmpty = false := by
      simpa [List.isEmpty_iff] using hbase
    rcases filters with _ | l
    · refine ⟨?_, ?_, ?_⟩
      · simp only [get_all_users, hbe]
        simp [hbase, (applyOrderStep_ne_empty_messages applyOrder order_by base).1]
      · simp only [get_all_users, hbe]
        simp [(applyOrderStep_ne_empty_messages applyOrder order_by base).2]
      · intro _ g
        simp [get_all_users, hbe]
    · by_cases hl : l = []
      · subst hl
        refine ⟨?_, ?_, ?_⟩
        · simp only [get_all_users, hbe]
          simp [hbase, (applyOrderStep_ne_empty_messages applyOrder order_by base).1]
        · simp only [get_all_users, hbe]
          simp [(applyOrderStep_ne_empty_messages applyOrder order_by base).2]
        · intro _ g
          simp [get_all_users, hbe]
      · have hlt : (!l.isEmpty) = true := by
          simpa [List.isEmpty_iff] using hl
        by_cases hfe : applyFilter base = []
        · refine ⟨?_, ?_, ?_⟩
          · simp only [get_all_users, hbe, hlt, hfe]
            simp [hbase, USER_MESSAGES_list_empty, USER_MESSAGES_search_empty]
          · simp only [get_all_users, hbe, hlt, hfe]
            simp [hbase, hl, hfe]
          · intro hcon _
            exact absurd (hcon l rfl) hl
        · have hfee : (applyFilter base).isEmpty = false := by
            simpa [List.isEmpty_iff] using hfe
          refine ⟨?_, ?_, ?_⟩
          · simp only [get_all_users, hbe, hlt, hfee]
            simp [hbase,
              (applyOrderStep_ne_empty_messages applyOrder order_by
                (applyFilter base)).1]
          · simp only [get_all_users, hbe, hlt, hfee]
            simp [hfe,
              (applyOrderStep_ne_empty_messages applyOrder order_by
                (applyFilter base)).2]
          · intro hcon _
            exact absurd (hcon l rfl) hl

/-- Witness for C7: an empty collection fails "no data exists"; a
non-empty collection whose truthy filter excludes everything fails
"no matches"; an untruthy (empty) filters dict leaves the result
independent of the filter application. -/
theorem get_all_users_empty_errors_witness :
    (get_all_users ([] : List Nat) id (fun _ qs => qs) none none =
      .error USER_MESSAGES_list_empty) ∧
    (get_all_users [1, 2] (fun _ => []) (fun _ qs => qs) none
        (some [("name", "zz")]) = .error USER_MESSAGES_search_empty) ∧
    (get_all_users [1, 2] (fun _ => []) (fun _ qs => qs) none (some []) =
      get_all_users [1, 2] id (fun _ qs => qs) none (some [])) := by
  refine ⟨?_, ?_, ?_⟩
  · exact (get_all_users_empty_errors ([] : List Nat) id (fun _ qs => qs)
      none none).1.mpr rfl
  · exact (get_all_users_empty_errors [1, 2] (fun _ => []) (fun _ qs => qs)
      none (some [("name", "zz")])).2.1.mpr
      ⟨⟨[("name", "zz")], rfl, by decide⟩, by decide, rfl⟩
  · exact (get_all_users_empty_errors [1, 2] (fun _ => []) (fun _ qs => qs)
      none (some [])).2.2 (fun l hl => (Option.some.inj hl).symm) id

/-- C5: `get_user_by_id` raises a distinct message at each
malformed-input stage (non-string or blank input, undecodable encoded id,
wrong type tag, invalid raw UUID), and for every well-formed identifier
whose account does not exist it raises the single "not found" message,
identical regardless of which account was looked up (the message is a
constant independent of the decoded id and of the database). -/
theorem get_user_by_id_spec :
    (∀ (dec : String → Option (String × String))
       (pUUID : String → Option String) (db : String → Option UserRec),
      (get_user_by_id dec pUUID db .nonStr =
        .error "Oops! It looks like the user ID is missing or invalid. Please try again.") ∧
      (∀ s, pyIsBlank s = true →
        get_user_by_id dec pUUID db (.str s) =
          .error "Oops! It looks like the user ID is missing or invalid. Please try again.") ∧
      (∀ s, pyIsBlank s = false → 2 < s.length → dec s = none →
        get_user_by_id dec pUUID db (.str s) =
          .error "We couldn\x27t read the user ID format. Please double-check and try again.") ∧
      (∀ s t raw, pyIsBlank s = false → 2 < s.length →
        dec s = some (t, raw) → t ≠ "UserNode" →
        get_user_by_id dec pUUID db (.str s) =
          .error ("Invalid type: expected \x27UserNode\x27, got \x27" ++ t ++ "\x27")) ∧
      (∀ s raw, pyIsBlank s = false → 2 < s.length →
        dec s = some ("UserNode", raw) → pUUID raw = none →
        get_user_by_id dec pUUID db (.str s) =
          .error "The user ID format is not valid. Please try again.") ∧
      (∀ s raw uuid, pyIsBlank s = false → 2 < s.length →
        dec s = some ("UserNode", raw) → pUUID raw = some uuid →
        db uuid = none →
        get_user_by_id dec pUUID db (.str s) =
          .error USER_MESSAGES_not_found)) ∧
    ("Oops! It looks like the user ID is missing or invalid. Please try again." ≠
        "We couldn\x27t read the user ID format. Please double-check and try again." ∧
     "Oops! It looks like the user ID is missing or invalid. Please try again." ≠
        "The user ID format is not valid. Please try again." ∧
     "Oops! It looks like the user ID is missing or invalid. Please try again." ≠
        USER_MESSAGES_not_found ∧
     "We couldn\x27t read the user ID format. Please double-check and try again." ≠
        "The user ID format is not valid. Please try again." ∧
     "We couldn\x27t read the user ID format. Please double-check and try again." ≠
        USER_MESSAGES_not_found ∧
     "The user ID format is not valid. Please try again." ≠
        USER_MESSAGES_not_found) ∧
    (∀ t : String,
      ("Invalid type: expected \x27UserNode\x27, got \x27" ++ t ++ "\x27") ≠
          "Oops! It looks like the user ID is missing or invalid. Please try again." ∧
      ("Invalid type: expected \x27UserNode\x27, got \x27" ++ t ++ "\x27") ≠
          "We couldn\x27t read the user ID format. Please double-check and try again." ∧
      ("Invalid type: expected \x27UserNode\x27, got \x27" ++ t ++ "\x27") ≠
          "The user ID format is not valid. Please try again." ∧
      ("Invalid type: expected \x27UserNode\x27, got \x27" ++ t ++ "\x27") ≠
          USER_MESSAGES_not_found) := by
  refine ⟨?_, ⟨by decide, by decide, by decide, by decide, by decide, by decide⟩, ?_⟩
  · intro dec pUUID db
    refine ⟨rfl, ?_, ?_, ?_, ?_, ?_⟩
    · intro s hb
      simp [get_user_by_id, hb]
    · intro s hb hlen hdec
      have hl2 : ¬ s.length ≤ 2 := Nat.not_le.mpr hlen
      simp [get_user_by_id, hb, hl2, hdec]
    · intro s t raw hb hlen hdec ht
      have hl2 : ¬ s.length ≤ 2 := Nat.not_le.mpr hlen
      simp [get_user_by_id, hb, hl2, hdec, ht]
    · intro s raw hb hlen hdec hp
      have hl2 : ¬ s.length ≤ 2 := Nat.not_le.mpr hlen
      simp [get_user_by_id, hb, hl2, hdec, hp]
    · intro s raw uuid hb hlen hdec hp hdb
      have hl2 : ¬ s.length ≤ 2 := Nat.not_le.mpr hlen
      simp [get_user_by_id, hb, hl2, hdec, hp, hdb]
  · intro t
    refine ⟨?_, ?_, ?_, ?_⟩ <;>
      · intro h
        have h2 := congrArg (fun s => s.data.head?) h
        simp [String.data_append, List.head?_append,
              USER_MESSAGES_not_found] at h2

/-- Witness for C5: a well-formed identifier whose account is missing
yields the generic "not found" message; a wrong type tag yields the
distinct invalid-type message. -/
theorem get_user_by_id_spec_witness :
    (get_user_by_id (fun _ => some ("UserNode", "u1")) (fun _ => some "u1")
       (fun _ => none) (.str "abc") = .error USER_MESSAGES_not_found) ∧
    (get_user_by_id (fun _ => some ("ProfileNode", "u1")) (fun _ => some "u1")
       (fun _ => none) (.str "abc") =
      .error ("Invalid type: expected \x27UserNode\x27, got \x27ProfileNode\x27")) ∧
    "Oops! It looks like the user ID is missing or invalid. Please try again." ≠
      USER_MESSAGES_not_found := by
  refine ⟨?_, ?_, ?_⟩
  · exact ((get_user_by_id_spec.1 (fun _ => some ("UserNode", "u1"))
      (fun _ => some "u1") (fun _ => none)).2.2.2.2.2 "abc" "u1" "u1"
      (by decide) (by decide) rfl rfl rfl)
  · have h := ((get_user_by_id_spec.1 (fun _ => some ("ProfileNode", "u1"))
      (fun _ => some "u1") (fun _ => none)).2.2.2.1 "abc" "ProfileNode" "u1"
      (by decide) (by decide) rfl (by decide))
    simpa using h
  · exact get_user_by_id_spec.2.1.2.2.1

/-- C8: after shape validation passes, `login_user` fails
`UNAUTHENTICATED` with the generic no-account message when no stored
account has exactly the given email; fails `UNAUTHENTICATED` with the
distinct incorrect-password message when the account exists but the
password does not verify against the stored hash; returns the account on
successful verification; and the two failure messages differ. -/
theorem login_user_spec
    (validateShape : String → String → Option (List (String × ErrVal)))
    (db : List UserRec) (check_password : UserRec → String → Bool)
    (email password : String)
    (hvalid : validateShape email password = none) :
    ((∀ u ∈ db, u.email ≠ email) →
      login_user validateShape db check_password email password =
        .error ⟨USER_MESSAGES_email_with_no_user,
                [("code", .str "UNAUTHENTICATED"),
                 ("errors", .dict [("email", .str USER_MESSAGES_email_with_no_user)])]⟩) ∧
    (∀ u, db.find? (fun v => v.email == email) = some u →
      check_password u password = false →
      login_user validateShape db check_password email password =
        .error ⟨USER_MESSAGES_invalid_password,
                [("code", .str "UNAUTHENTICATED"),
                 ("errors", .dict [("password", .str USER_MESSAGES_invalid_password)])]⟩) ∧
    (∀ u, db.find? (fun v => v.email == email) = some u →
      check_password u password = true →
      login_user validateShape db check_password email password = .ok u) ∧
    USER_MESSAGES_email_with_no_user ≠ USER_MESSAGES_invalid_password := by
  refine ⟨?_, ?_, ?_, by decide⟩
  · intro hnone
    have hfind : db.find? (fun v => v.email == email) = none := by
      rw [List.find?_eq_none]
      intro u hu
      simpa using hnone u hu
    simp [login_user, hvalid, hfind]
  · intro u hfind hcp
    simp [login_user, hvalid, hfind, hcp]
  · intro u hfind hcp
    simp [login_user, hvalid, hfind, hcp]

/-- Witness for C8: with one stored account, an unknown email yields the
no-account message, a known email with failing verification yields the
incorrect-password message, and a passing verification returns the
account. -/
theorem login_user_spec_witness :
    (login_user (fun _ _ => none) [⟨"u1", "a@x.com", "h1"⟩]
       (fun _ _ => false) "b@x.com" "pw" =
      .error ⟨USER_MESSAGES_email_with_no_user,
              [("code", .str "UNAUTHENTICATED"),
               ("errors", .dict [("email", .str USER_MESSAGES_email_with_no_user)])]⟩) ∧
    (login_user (fun _ _ => none) [⟨"u1", "a@x.com", "h1"⟩]
       (fun _ _ => false) "a@x.com" "pw" =
      .error ⟨USER_MESSAGES_invalid_password,
              [("code", .str "UNAUTHENTICATED"),
               ("errors", .dict [("password", .str USER_MESSAGES_invalid_password)])]⟩) ∧
    (login_user (fun _ _ => none) [⟨"u1", "a@x.com", "h1"⟩]
       (fun _ _ => true) "a@x.com" "pw" = .ok ⟨"u1", "a@x.com", "h1"⟩) := by
  refine ⟨?_, ?_, ?_⟩
  · exact (login_user_spec (fun _ _ => none) [⟨"u1", "a@x.com", "h1"⟩]
      (fun _ _ => false) "b@x.com" "pw" rfl).1 (by decide)
  · exact (login_user_spec (fun _ _ => none) [⟨"u1", "a@x.com", "h1"⟩]
      (fun _ _ => false) "a@x.com" "pw" rfl).2.1 ⟨"u1", "a@x.com", "h1"⟩
      (by decide) rfl
  · exact (login_user_spec (fun _ _ => none) [⟨"u1", "a@x.com", "h1"⟩]
      (fun _ _ => true) "a@x.com" "pw" rfl).2.2.1 ⟨"u1", "a@x.com", "h1"⟩
      (by decide) rfl

/-! Helper lemmas for the age computation on the boundary dates. -/

/-- Same month/day never compares tuple-less than itself. -/
theorem tupleLt_self_false (a b : Nat) : ¬ tupleLt (a, b) (a, b) := by
  simp [tupleLt]

/-- Birth with the same month/day, `k` years earlier: age is exactly
`k`. -/
theorem pyAge_same_monthday (t : PyDate) (k : Int) :
    pyAge t ⟨t.year - k, t.month, t.day⟩ = k := by
  unfold pyAge
  rw [if_neg (tupleLt_self_false t.month t.day)]
  dsimp only
  omega

/-- Birth one day after the `k`-years-earlier date: age is `k - 1`. -/
theorem pyAge_nextDay_monthday (t : PyDate) (k : Int) (hm : 1 ≤ t.month)
    (hm12 : t.month ≤ 12) (_hd : 1 ≤ t.day) :
    pyAge t (nextDay ⟨t.year - k, t.month, t.day⟩) = k - 1 := by
  unfold nextDay
  by_cases h1 : t.day < daysInMonth (t.year - k) t.month
  · rw [if_pos h1]
    unfold pyAge
    rw [if_pos (by simp [tupleLt])]
    dsimp only
    omega
  · rw [if_neg h1]
    by_cases h2 : t.month < 12
    · rw [if_pos h2]
      unfold pyAge
      rw [if_pos (by simp [tupleLt])]
      dsimp only
      omega
    · rw [if_neg h2]
      unfold pyAge
      rw [if_neg (by simp only [tupleLt]; omega)]
      dsimp only
      omega

/-- Birth one day before the `k`-years-earlier date: age is still `k`. -/
theorem pyAge_prevDay_monthday (t : PyDate) (k : Int) (hm : 1 ≤ t.month)
    (_hd : 1 ≤ t.day) :
    pyAge t (prevDay ⟨t.year - k, t.month, t.day⟩) = k := by
  unfold prevDay
  by_cases h1 : 1 < t.day
  · rw [if_pos h1]
    unfold pyAge
    rw [if_neg (by simp only [tupleLt]; omega)]
    dsimp only
    omega
  · rw [if_neg h1]
    by_cases h2 : 1 < t.month
    · rw [if_pos h2]
      unfold pyAge
      rw [if_neg (by simp only [tupleLt]; omega)]
      dsimp only
      omega
    · rw [if_neg h2]
      unfold pyAge
      rw [if_pos (by simp only [tupleLt]; omega)]
      dsimp only
      omega

/-- C2 counterexample: with today = 2026-10-12, the birth date
1936-10-11 — exactly 90 years and 1 day before today (it is the day
before 1936-10-12) — computes age 90 and is ACCEPTED by
`validate_age_range`, whereas the claim says it is rejected as
"too old".  (The code rejects only `age > 90`; its own test suite
asserts that age 90 is valid.) -/
theorem age_range_90y1d_counterexample :
    prevDay ⟨1936, 10, 12⟩ = ⟨1936, 10, 11⟩ ∧
    pyAge ⟨2026, 10, 12⟩ ⟨1936, 10, 11⟩ = 90 ∧
    validate_age_range ⟨2026, 10, 12⟩ ⟨1936, 10, 11⟩ = none :=
  ⟨by decide, by decide, by decide⟩

/-- C2 (amended): for every valid value of today's date, the validator
accepts a birth date exactly 12 years before today and one exactly
90 years before today; rejects as "too young" a birth date one day after
the 12-years-before date (i.e. 11 years and 364-or-365 days before
today); ACCEPTS a birth date exactly 90 years and 1 day before today
(age computes to 90, and only `age > 90` is rejected); and rejects as
"too old" a birth date exactly 91 years before today — with age computed
as `today.year - birth.year - (1 if (today.month, today.day) <
(birth.month, birth.day) else 0)`. -/
theorem validate_age_range_boundaries (today : PyDate)
    (htoday : isValidDate today = true) :
    validate_age_range today ⟨today.year - 12, today.month, today.day⟩ = none ∧
    validate_age_range today
        (nextDay ⟨today.year - 12, today.month, today.day⟩) =
      some "Too young — must be at least 12 years old." ∧
    validate_age_range today ⟨today.year - 90, today.month, today.day⟩ = none ∧
    validate_age_range today
        (prevDay ⟨today.year - 90, today.month, today.day⟩) = none ∧
    validate_age_range today ⟨today.year - 91, today.month, today.day⟩ =
      some "Too old — must be less than 90 years old." := by
  have hbounds : 1 ≤ today.month ∧ today.month ≤ 12 ∧ 1 ≤ today.day := by
    simp only [isValidDate, Bool.and_eq_true, decide_eq_true_eq] at htoday
    exact ⟨htoday.1.1.1.2, htoday.1.1.2, htoday.1.2⟩
  obtain ⟨hm, hm12, hd⟩ := hbounds
  refine ⟨?_, ?_, ?_, ?_, ?_⟩
  · rw [validate_age_range]
    rw [pyAge_same_monthday today 12]
    norm_num
  · rw [validate_age_range]
    rw [pyAge_nextDay_monthday today 12 hm hm12 hd]
    norm_num
  · rw [validate_age_range]
    rw [pyAge_same_monthday today 90]
    norm_num
  · rw [validate_age_range]
    rw [pyAge_prevDay_monthday today 90 hm hd]
    norm_num
  · rw [validate_age_range]
    rw [pyAge_same_monthday today 91]
    norm_num

/-- Witness for C2 (amended): all five boundary behaviours evaluated at
today = 2026-10-12. -/
theorem validate_age_range_boundaries_witness :
    validate_age_range ⟨2026, 10, 12⟩ ⟨2014, 10, 12⟩ = none ∧
    validate_age_range ⟨2026, 10, 12⟩ (nextDay ⟨2014, 10, 12⟩) =
      some "Too young — must be at least 12 years old." ∧
    validate_age_range ⟨2026, 10, 12⟩ ⟨1936, 10, 12⟩ = none ∧
    validate_age_range ⟨2026, 10, 12⟩ (prevDay ⟨1936, 10, 12⟩) = none ∧
    validate_age_range ⟨2026, 10, 12⟩ ⟨1936, 10, 12⟩ = none := by
  have h := validate_age_range_boundaries ⟨2026, 10, 12⟩ (by decide)
  exact ⟨h.1, h.2.1, h.2.2.1, h.2.2.2.1, h.2.2.1⟩

end Soundscene
